import Mathlib

/-!
Verification of the data-source core of the cc-analyst repository: the ECB
source plugin (`src/data_sources/ecb_data_source.py`), its two response
parsers, its parameter validation, and the data manager
(`src/data_manager.py`).

The embedding is shallow and executable.  Python strings are Lean `String`s
(operated on through their character lists so that every definition reduces
in the kernel), Python dicts appearing as open parameter mappings are
association lists of `PyVal` (a Python value: string, int, None or list),
JSON-decoded payloads are `JVal` trees, and numeric values are kept as exact
decimal literals `PyNum.dec mantissa exp10` (value = mantissa * 10^exp10):
the code under verification never does arithmetic on a parsed value, it only
stores it, so no binary floating-point rounding is modelled.  Fallible
Python code (code that can raise) is embedded in `Except String`, where
`.error msg` models an uncaught exception; `try/except` blocks become
matches on that result.
-/

/-! ## Character-level string utilities (kernel-reducible) -/

/-- Split a character list at every occurrence of `sep`, like Python
`str.split(sep)` for a one-character separator: `"" ↦ [""]`,
`"a,," ↦ ["a", "", ""]`. -/
def splitChar (sep : Char) : List Char → List (List Char)
  | [] => [[]]
  | c :: cs =>
    let rest := splitChar sep cs
    if c == sep then [] :: rest
    else match rest with
      | r :: rs => (c :: r) :: rs
      | [] => [[c]]

/-- Python `str.split(sep)` for a one-character separator. -/
def pySplit (s : String) (sep : Char) : List String :=
  (splitChar sep s.data).map String.mk

/-- The whitespace characters Python `str.strip()` (and the numeric
conversions) remove: space, tab, newline, vertical tab, form feed,
carriage return.  (Non-ASCII whitespace is not modelled.) -/
def isPyWs (c : Char) : Bool :=
  c == ' ' || c == '\t' || c == '\n' || c == '\r' ||
  c == Char.ofNat 11 || c == Char.ofNat 12

/-- Drop leading and trailing whitespace from a character list. -/
def stripWs (cs : List Char) : List Char :=
  ((cs.dropWhile isPyWs).reverse.dropWhile isPyWs).reverse

/-- Python `str.strip()`. -/
def pyStrip (s : String) : String := String.mk (stripWs s.data)

/-- Drop every leading and trailing occurrence of the character `q`,
like Python `str.strip(q)`. -/
def stripCharEnds (q : Char) (cs : List Char) : List Char :=
  ((cs.dropWhile (· == q)).reverse.dropWhile (· == q)).reverse

/-- Python `str.strip('"')`. -/
def pyStripQuotes (s : String) : String := String.mk (stripCharEnds '"' s.data)

/-- Numeric value of a list of decimal digits. -/
def natOfDigits (cs : List Char) : Nat :=
  cs.foldl (fun n c => n * 10 + (c.toNat - 48)) 0

/-- Decimal digits of `n`, most significant first; `fuel` bounds the
recursion (any `fuel > n` is enough since `n / 10 < n` for `n ≥ 10`). -/
def natDigitsAux : Nat → Nat → List Char
  | 0, _ => []
  | fuel + 1, n =>
    if n < 10 then [Char.ofNat (48 + n)]
    else natDigitsAux fuel (n / 10) ++ [Char.ofNat (48 + n % 10)]

/-- Decimal rendering of a natural number (Python `str(n)` for `n ≥ 0`). -/
def natRepr (n : Nat) : String := String.mk (natDigitsAux (n + 1) n)

/-- Decimal rendering of an integer (Python `str(n)`). -/
def intRepr : Int → String
  | .ofNat n => natRepr n
  | .negSucc n => "-" ++ natRepr (n + 1)

/-- Concatenate a list of strings. -/
def concatStrings : List String → String
  | [] => ""
  | s :: rest => s ++ concatStrings rest

/-- Python `", ".join(items)`. -/
def joinComma : List String → String
  | [] => ""
  | [s] => s
  | s :: rest => s ++ ", " ++ joinComma rest

/-- Boolean prefix test on character lists. -/
def strHasPrefixChars : List Char → List Char → Bool
  | [], _ => true
  | _ :: _, [] => false
  | p :: ps, c :: cs => p == c && strHasPrefixChars ps cs

/-- Boolean prefix test on strings. -/
def strHasPrefix (p s : String) : Bool := strHasPrefixChars p.data s.data

/-! ## Python numeric-literal parsing -/

/-- A Python numeric value as produced by `float(...)` or a JSON number:
an exact decimal literal `mant * 10^exp10`, an infinity, or NaN.
Binary-float rounding is not modelled (the verified code stores parsed
numbers without computing with them). -/
inductive PyNum where
  | dec (mant : Int) (exp10 : Int)
  | inf (pos : Bool)
  | nan
deriving DecidableEq, Repr

/-- Optional leading sign: returns (isNegative, rest). -/
def parseSign : List Char → Bool × List Char
  | c :: cs =>
    if c == '+' then (false, cs)
    else if c == '-' then (true, cs)
    else (false, c :: cs)
  | [] => (false, [])

/-- Continue a digit group: digits, with single underscores allowed
between digits (Python 3.6 numeric-literal underscores).  Returns the
digits collected (underscores removed) and the unconsumed rest; a
misplaced underscore is left in the rest (and so fails the caller's
end-of-input check, as in Python). -/
def digitGroupAux : List Char → List Char → List Char × List Char
  | c :: cs, acc =>
    if c.isDigit then digitGroupAux cs (acc ++ [c])
    else if c == '_' then
      match cs with
      | d :: cs2 =>
        if d.isDigit then digitGroupAux cs2 (acc ++ [d]) else (acc, c :: cs)
      | [] => (acc, [c])
    else (acc, c :: cs)
  | [], acc => (acc, [])

/-- Parse a digit group that must start with a digit. -/
def digitGroup : List Char → Option (List Char × List Char)
  | c :: cs => if c.isDigit then some (digitGroupAux cs [c]) else none
  | [] => none

/-- Python `int(s)` on a string: strip whitespace, optional sign, decimal
digits (underscores between digits allowed), nothing left over. -/
def pyInt? (s : String) : Option Int :=
  let cs := stripWs s.data
  let (neg, rest) := parseSign cs
  match digitGroup rest with
  | some (ds, []) =>
    some (if neg then -(natOfDigits ds : Int) else (natOfDigits ds : Int))
  | _ => none

/-- Build the decimal value from integer-part digits, fraction digits and
a decimal exponent. -/
def mkDec (neg : Bool) (ip fp : List Char) (e : Int) : Option PyNum :=
  let m : Nat := natOfDigits (ip ++ fp)
  let mi : Int := if neg then -(m : Int) else (m : Int)
  some (.dec mi (e - (fp.length : Int)))

/-- Parse the decimal body of a Python float literal (after sign):
`[digits] [. [digits]] [(e|E) [sign] digits]`, at least one mantissa
digit, nothing left over. -/
def parseDecimalCore (neg : Bool) (cs : List Char) : Option PyNum :=
  let (ip, r1) :=
    match digitGroup cs with
    | some (ds, r) => (ds, r)
    | none => ([], cs)
  let (fp, r2) :=
    match r1 with
    | c :: cs2 =>
      if c == '.' then
        match digitGroup cs2 with
        | some (ds, r) => (ds, r)
        | none => (([] : List Char), cs2)
      else (([] : List Char), r1)
    | [] => (([] : List Char), ([] : List Char))
  if ip.isEmpty && fp.isEmpty then none
  else
    match r2 with
    | [] => mkDec neg ip fp 0
    | e :: cs3 =>
      if e == 'e' || e == 'E' then
        let (eneg, r4) := parseSign cs3
        match digitGroup r4 with
        | some (eds, []) =>
          mkDec neg ip fp
            (if eneg then -(natOfDigits eds : Int) else (natOfDigits eds : Int))
        | _ => none
      else none

/-- Lower-case a character list. -/
def toLowerList (cs : List Char) : List Char := cs.map Char.toLower

/-- Python `float(s)` on a string: strip whitespace, optional sign, then
`inf`/`infinity`/`nan` (case-insensitive) or a decimal literal.
`none` models `ValueError`. -/
def pyFloat? (s : String) : Option PyNum :=
  let cs := stripWs s.data
  let (neg, rest) := parseSign cs
  let low := toLowerList rest
  if low == "inf".data || low == "infinity".data then some (.inf (!neg))
  else if low == "nan".data then some .nan
  else parseDecimalCore neg rest

/-! ## Python values for the open parameter mapping -/

/-- A Python value as it can appear in the `parameters` dict handed to
`validate_parameters`: a string, an int, `None`, or a list. -/
inductive PyVal where
  | vstr (s : String)
  | vint (n : Int)
  | vnone
  | vlist (xs : List PyVal)

/-- The Python type name, as it appears in `TypeError` messages. -/
def pyTypeName : PyVal → String
  | .vstr _ => "str"
  | .vint _ => "int"
  | .vnone => "NoneType"
  | .vlist _ => "list"

/-- Python truthiness of a value. -/
def pyTruthy : PyVal → Bool
  | .vstr s => !s.data.isEmpty
  | .vint n => n != 0
  | .vnone => false
  | .vlist xs => !xs.isEmpty

/-- Python `repr` of a string: quote choice (single quotes unless the
string contains a single quote and no double quote) and escaping of the
backslash, the quote character, newline, carriage return and tab.
(Escaping of other non-printable characters is not modelled.) -/
def pyCharEscape (q c : Char) : String :=
  if c == '\\' then "\\\\"
  else if c == '\n' then "\\n"
  else if c == '\r' then "\\r"
  else if c == '\t' then "\\t"
  else if c == q then "\\" ++ String.singleton q
  else String.singleton c

/-- Python `repr` of a string. -/
def pyReprStr (s : String) : String :=
  let q : Char := if s.data.contains '\'' && !(s.data.contains '"') then '"' else '\''
  String.singleton q ++ concatStrings (s.data.map (pyCharEscape q)) ++ String.singleton q

mutual

/-- Python `repr`/`str` of a value as an f-string renders it (`str` for
the value itself; elements of a list are rendered with `repr`). -/
def pyReprVal : PyVal → String
  | .vstr s => pyReprStr s
  | .vint n => intRepr n
  | .vnone => "None"
  | .vlist xs => "[" ++ pyReprValList xs ++ "]"

/-- Comma-separated `repr`s of the elements of a list. -/
def pyReprValList : List PyVal → String
  | [] => ""
  | [v] => pyReprVal v
  | v :: rest => pyReprVal v ++ ", " ++ pyReprValList rest

end

/-- Python `str(v)` as an f-string formats a value: for strings the text
itself (no quotes), for everything else `repr`. -/
def pyStr : PyVal → String
  | .vstr s => s
  | v => pyReprVal v

/-- The open `parameters` mapping: a Python dict from string keys to
values, in insertion order. -/
abbrev Params := List (String × PyVal)

/-- Python `parameters.get(k)` / `k in parameters` lookup. -/
def Params.get (ps : Params) (k : String) : Option PyVal :=
  (ps.find? (fun p => p.1 == k)).map Prod.snd

/-- Python iteration `for x in v`: lists yield their elements, strings
yield their characters as one-character strings, ints and `None` raise
`TypeError`. -/
def pyIter : PyVal → Except String (List PyVal)
  | .vlist xs => .ok xs
  | .vstr s => .ok (s.data.map (fun c => .vstr (String.singleton c)))
  | v => .error ("TypeError: " ++ pyTypeName v ++ " object is not iterable")

/-- Python `v in d` for a dict `d` with string keys: a string compares
against the keys, an int or `None` is simply absent, a list raises
`TypeError` (unhashable). -/
def pyInStrKeys (v : PyVal) (keys : List String) : Except String Bool :=
  match v with
  | .vstr s => .ok (keys.contains s)
  | .vint _ => .ok false
  | .vnone => .ok false
  | .vlist _ => .error "TypeError: unhashable type: 'list'"

/-- The list comprehension `[x for x in xs if x not in keys]`: membership
is tested element by element, in order, and the first `TypeError`
propagates. -/
def pyFilterNotInKeys (keys : List String) : List PyVal → Except String (List PyVal)
  | [] => .ok []
  | v :: vs =>
    match pyInStrKeys v keys with
    | .error e => .error e
    | .ok b =>
      match pyFilterNotInKeys keys vs with
      | .error e => .error e
      | .ok rest => .ok (if b then rest else v :: rest)

/-! ## The model of `datetime.strptime(s, "%Y-%m-%d")` -/

/-- Gregorian leap-year rule. -/
def isLeapYear (y : Nat) : Bool :=
  y % 4 == 0 && (y % 100 != 0 || y % 400 == 0)

/-- Days in a month. -/
def daysInMonth (y m : Nat) : Nat :=
  if m == 2 then (if isLeapYear y then 29 else 28)
  else if m == 4 || m == 6 || m == 9 || m == 11 then 30
  else 31

/-- Whether `datetime.strptime(s, "%Y-%m-%d")` succeeds: exactly four
year digits, one or two month digits with value 1..12, one or two day
digits with a value valid for that month and year, separated by single
hyphens with nothing left over, and a year of at least 1. -/
def strptimeOk (s : String) : Bool :=
  match splitChar '-' s.data with
  | [y, m, d] =>
    y.length == 4 && y.all Char.isDigit &&
    decide (1 ≤ m.length) && m.length ≤ 2 && m.all Char.isDigit &&
    decide (1 ≤ d.length) && d.length ≤ 2 && d.all Char.isDigit &&
    (let yn := natOfDigits y
     let mn := natOfDigits m
     let dn := natOfDigits d
     decide (1 ≤ yn) && decide (1 ≤ mn) && mn ≤ 12 &&
     decide (1 ≤ dn) && dn ≤ daysInMonth yn mn)
  | _ => false

/-! ## ECB data source: static data and parameter validation -/

/-- `ECBDataSource._rate_mappings`: series code to ECB dataset path. -/
def rate_mappings : List (String × String) :=
  [("MRR", "FM/B.U2.EUR.4F.KR.MRR_FR.LEV"),
   ("DFR", "FM/B.U2.EUR.4F.KR.DFR.LEV"),
   ("MLF", "FM/B.U2.EUR.4F.KR.MLFR_FR.LEV")]

/-- `ECBDataSource._inflation_mappings`. -/
def inflation_mappings : List (String × String) :=
  [("HICP", "ICP/M.U2.N.000000.4.ANR"),
   ("CORE", "ICP/M.U2.N.XEF000.4.ANR")]

/-- `ECBDataSource.get_supported_datasets()`. -/
def supported_datasets : List (String × String) :=
  [("interest_rates", "ECB Key Interest Rates (MRR, DFR, MLF)"),
   ("inflation_rates", "Harmonised Index of Consumer Prices (HICP)"),
   ("money_market", "Money Market Rates"),
   ("government_bonds", "Government Bond Yields"),
   ("exchange_rates", "Euro Exchange Rates"),
   ("monetary_aggregates", "Monetary Aggregates")]

/-- The `{valid, errors, suggestions}` dictionary `validate_parameters`
returns. -/
structure ValidationResult where
  valid : Bool
  errors : List String
  suggestions : List String
deriving DecidableEq, Repr

/-- The dataset-type branch of `ECBDataSource.validate_parameters`
(lines 401-429): returns the (errors, suggestions) it contributes, or
an uncaught exception. -/
def datasetBranch (dataset_type : String) (parameters : Params) :
    Except String (List String × List String) :=
  if dataset_type == "interest_rates" then
    let rate_types := (parameters.get "rate_types").getD (.vlist [])
    if pyTruthy rate_types then
      match pyIter rate_types with
      | .error e => .error e
      | .ok rts =>
        match pyFilterNotInKeys (rate_mappings.map Prod.fst) rts with
        | .error e => .error e
        | .ok invalid =>
          if invalid.isEmpty then .ok ([], [])
          else
            .ok (["Invalid rate types: " ++ pyReprVal (.vlist invalid)],
                 ["Valid rate types are: " ++
                  pyReprVal (.vlist ((rate_mappings.map Prod.fst).map PyVal.vstr))])
    else .ok ([], [])
  else if dataset_type == "inflation_rates" then
    let inflation_types := (parameters.get "inflation_types").getD (.vlist [])
    if pyTruthy inflation_types then
      match pyIter inflation_types with
      | .error e => .error e
      | .ok its =>
        match pyFilterNotInKeys (inflation_mappings.map Prod.fst) its with
        | .error e => .error e
        | .ok invalid =>
          if invalid.isEmpty then .ok ([], [])
          else
            .ok (["Invalid inflation types: " ++ pyReprVal (.vlist invalid)],
                 ["Valid inflation types are: " ++
                  pyReprVal (.vlist ((inflation_mappings.map Prod.fst).map PyVal.vstr))])
    else .ok ([], [])
  else
    .ok (["Dataset type '" ++ dataset_type ++ "' not supported"],
         ["Supported datasets: " ++
          pyReprVal (.vlist ((supported_datasets.map Prod.fst).map PyVal.vstr))])

/-- One turn of the date-format loop of `validate_parameters` (lines
431-442): if `date_param` is present and not `None`, try
`datetime.strptime(value, "%Y-%m-%d")`; `ValueError` is caught and
recorded, a `TypeError` from a non-string value is NOT caught. -/
def checkDateParam (parameters : Params) (date_param : String) :
    Except String (List String × List String) :=
  match parameters.get date_param with
  | none => .ok ([], [])
  | some v =>
    match v with
    | .vnone => .ok ([], [])
    | .vstr s =>
      if strptimeOk s then .ok ([], [])
      else
        .ok (["Invalid " ++ date_param ++ " format: " ++ s],
             [date_param ++ " should be in YYYY-MM-DD format"])
    | other =>
      .error ("TypeError: strptime() argument 1 must be str, not " ++
              pyTypeName other)

/-- `ECBDataSource.validate_parameters` (lines 394-444).  The result is
`.error e` when the Python code would raise an uncaught exception `e`. -/
def validate_parameters (dataset_type : String) (parameters : Params) :
    Except String ValidationResult :=
  match datasetBranch dataset_type parameters with
  | .error e => .error e
  | .ok (e1, s1) =>
    match checkDateParam parameters "start_date" with
    | .error e => .error e
    | .ok (e2, s2) =>
      match checkDateParam parameters "end_date" with
      | .error e => .error e
      | .ok (e3, s3) =>
        .ok { valid := (e1 ++ e2 ++ e3).isEmpty,
              errors := e1 ++ e2 ++ e3,
              suggestions := s1 ++ s2 ++ s3 }

/-! ## JSON-decoded payloads and the two response parsers -/

/-- A value as `response.json()` (Python `json.loads`) produces it: JSON
object keys are always strings, numbers are `PyNum`. -/
inductive JVal where
  | null
  | bool (b : Bool)
  | num (n : PyNum)
  | str (s : String)
  | arr (xs : List JVal)
  | obj (fields : List (String × JVal))

/-- Python truthiness of a JSON-decoded value. -/
def jTruthy : JVal → Bool
  | .null => false
  | .bool b => b
  | .num n =>
    match n with
    | .dec m _ => m != 0
    | .inf _ => true
    | .nan => true
  | .str s => !s.data.isEmpty
  | .arr xs => !xs.isEmpty
  | .obj fs => !fs.isEmpty

/-- Python `k in v` for a string `k`: key test on a dict, substring test
on a string, element test on a list, `TypeError` otherwise. -/
def jHasKey (v : JVal) (k : String) : Except String Bool :=
  match v with
  | .obj fs => .ok (fs.any (fun p => p.1 == k))
  | .str s => .ok (jStrContainsSub k.data s.data)
  | .arr xs =>
    .ok (xs.any (fun x =>
      match x with
      | .str s2 => s2 == k
      | _ => false))
  | _ => .error "TypeError: argument of type is not iterable"
where
  /-- Substring test on character lists. -/
  jStrContainsSub (pat : List Char) : List Char → Bool
    | [] => strHasPrefixChars pat []
    | c :: cs => strHasPrefixChars pat (c :: cs) || jStrContainsSub pat cs

/-- Python `v[k]` for a string key `k`: dict lookup (`KeyError` when
absent), `TypeError` on anything else. -/
def jIndexStr (v : JVal) (k : String) : Except String JVal :=
  match v with
  | .obj fs =>
    match fs.find? (fun p => p.1 == k) with
    | some p => .ok p.2
    | none => .error ("KeyError: " ++ k)
  | .str _ => .error "TypeError: string indices must be integers"
  | .arr _ => .error "TypeError: list indices must be integers, not str"
  | _ => .error "TypeError: object is not subscriptable"

/-- Structural list lookup (equals `xs[k]?`; defined recursively so it
reduces definitionally). -/
def listNth? : List α → Nat → Option α
  | [], _ => none
  | a :: _, 0 => some a
  | _ :: l, n + 1 => listNth? l n

/-- Python `v[i]` for an int `i`: list and string indexing with negative
wrap-around, `KeyError` on a string-keyed dict, `TypeError` otherwise. -/
def jIndexInt (v : JVal) (i : Int) : Except String JVal :=
  match v with
  | .arr xs =>
    let j : Int := if i < 0 then i + xs.length else i
    if j < 0 then .error "IndexError: list index out of range"
    else
      match listNth? xs j.toNat with
      | some x => .ok x
      | none => .error "IndexError: list index out of range"
  | .str s =>
    let j : Int := if i < 0 then i + s.data.length else i
    if j < 0 then .error "IndexError: string index out of range"
    else
      match listNth? s.data j.toNat with
      | some c => .ok (.str (String.singleton c))
      | none => .error "IndexError: string index out of range"
  | .obj _ => .error ("KeyError: " ++ intRepr i)
  | _ => .error "TypeError: object is not subscriptable"

/-- Python `v.get(k, dflt)`: only dicts have `.get`. -/
def jGetDefault (v : JVal) (k : String) (dflt : JVal) : Except String JVal :=
  match v with
  | .obj fs => .ok (((fs.find? (fun p => p.1 == k)).map Prod.snd).getD dflt)
  | _ => .error "AttributeError: object has no attribute get"

/-- Python `next(iter(v.keys()))`: first key of a dict (the caller has
checked the dict is truthy, hence non-empty). -/
def jFirstKey (v : JVal) : Except String String :=
  match v with
  | .obj fs =>
    match fs with
    | p :: _ => .ok p.1
    | [] => .error "StopIteration"
  | _ => .error "AttributeError: object has no attribute keys"

/-- Python `v.items()`: the key-value pairs of a dict, in insertion
order. -/
def jItems (v : JVal) : Except String (List (String × JVal)) :=
  match v with
  | .obj fs => .ok fs
  | _ => .error "AttributeError: object has no attribute items"

/-- One canonical observation: `{"date": ..., "value": ...}`.  The code
stores whatever `time_period["id"]` and `obs[0]` held, so both fields
are JSON values (`JVal.null` models Python `None`). -/
structure Obs where
  date : JVal
  value : JVal

/-- The two-variant `Series` result of a response parser: either
`{"observations": [...], "count": n}` or `{"error": msg}`. -/
inductive Series where
  | parsed (observations : List Obs) (count : Nat)
  | err (msg : String)

/-- Run an effectful step over each element, left to right, stopping at
the first uncaught exception (the shape of the parser's `for` loop). -/
def exceptMapM (f : α → Except String β) : List α → Except String (List β)
  | [] => .ok []
  | a :: as_ =>
    match f a with
    | .error e => .error e
    | .ok b =>
      match exceptMapM f as_ with
      | .error e => .error e
      | .ok bs => .ok (b :: bs)

/-- The body of the observation loop of `_parse_ecb_json_data` (lines
337-340): `time_period = time_periods[int(idx)]`, `value = obs[0] if obs
and obs[0] is not None else None`, then
`{"date": time_period["id"], "value": value}`. -/
def parseObsEntry (time_periods : JVal) (entry : String × JVal) :
    Except String Obs :=
  match pyInt? entry.1 with
  | none =>
    .error ("ValueError: invalid literal for int() with base 10: " ++
            pyReprStr entry.1)
  | some i =>
    match jIndexInt time_periods i with
    | .error e => .error e
    | .ok time_period =>
      let obs := entry.2
      match
        (if jTruthy obs then
          (match jIndexInt obs 0 with
          | .error e => .error e
          | .ok v0 =>
            match v0 with
            | .null => .ok JVal.null
            | _ => jIndexInt obs 0 : Except String JVal)
        else .ok JVal.null) with
      | .error e => .error e
      | .ok value =>
        match jIndexStr time_period "id" with
        | .error e => .error e
        | .ok date => .ok ⟨date, value⟩

/-- The body of the `try` block of `_parse_ecb_json_data` (lines
321-344): returns the observation list, or the uncaught exception the
`except` clause will catch. -/
def parseJsonBody (json_data : JVal) : Except String (List Obs) :=
  match jHasKey json_data "dataSets" with
  | .error e => .error e
  | .ok hasDS =>
    match (if hasDS then jIndexStr json_data "dataSets" else .ok JVal.null) with
    | .error e => .error e
    | .ok dsv =>
      if hasDS && jTruthy dsv then
        match jIndexInt dsv 0 with
        | .error e => .error e
        | .ok dataset =>
          match jGetDefault dataset "series" (.obj []) with
          | .error e => .error e
          | .ok series_data =>
            match
              (if jTruthy series_data then
                (match jFirstKey series_data with
                | .error e => .error e
                | .ok first_series_key =>
                  match jIndexStr series_data first_series_key with
                  | .error e => .error e
                  | .ok sv => jGetDefault sv "observations" (.obj [])
                 : Except String JVal)
              else .ok (.obj [])) with
            | .error e => .error e
            | .ok observations =>
              match jIndexStr json_data "structure" with
              | .error e => .error e
              | .ok st1 =>
                match jIndexStr st1 "dimensions" with
                | .error e => .error e
                | .ok st2 =>
                  match jIndexStr st2 "observation" with
                  | .error e => .error e
                  | .ok st3 =>
                    match jIndexInt st3 0 with
                    | .error e => .error e
                    | .ok st4 =>
                      match jIndexStr st4 "values" with
                      | .error e => .error e
                      | .ok time_periods =>
                        match jItems observations with
                        | .error e => .error e
                        | .ok items =>
                          exceptMapM (parseObsEntry time_periods) items
      else .ok []

/-- `ECBDataSource._parse_ecb_json_data` (lines 318-347): total, the
catch-all `except` turns any exception into the error-variant Series. -/
def parse_ecb_json_data (json_data : JVal) : Series :=
  match parseJsonBody json_data with
  | .ok data_points => .parsed data_points data_points.length
  | .error e => .err ("Failed to parse JSON data: " ++ e)

/-- The value field of one CSV data line: `float(parts[1]) if parts[1]
and parts[1] != "." else None`, with `ValueError` caught to `None`. -/
def csvValue (v : String) : JVal :=
  if !v.data.isEmpty && v != "." then
    match pyFloat? v with
    | some n => .num n
    | none => .null
  else .null

/-- One CSV data line as `_parse_ecb_csv_data` treats it: `none` when
the line has fewer than two comma-separated fields (silently skipped),
otherwise the observation built from the first two fields. -/
def csvLineObs (line : String) : Option Obs :=
  match pySplit line ',' with
  | d :: v :: _ => some ⟨.str (pyStripQuotes d), csvValue v⟩
  | _ => none

/-- The data-line loop of `_parse_ecb_csv_data` (lines 357-369),
accumulating observations in order. -/
def csvLoop : List String → List Obs → List Obs
  | [], acc => acc
  | line :: rest, acc =>
    match pySplit line ',' with
    | d :: v :: _ => csvLoop rest (acc ++ [⟨.str (pyStripQuotes d), csvValue v⟩])
    | _ => csvLoop rest acc

/-- `ECBDataSource._parse_ecb_csv_data` (lines 349-374). -/
def parse_ecb_csv_data (csv_text : String) : Series :=
  let lines := pySplit (pyStrip csv_text) '\n'
  if lines.length < 2 then .parsed [] 0
  else
    let data_points := csvLoop lines.tail []
    .parsed data_points data_points.length

/-! ## The ECB plugin's query path -/

/-- One HTTP request the plugin builds: the dataset path segment and the
query-string parameters (`format`, and `startPeriod`/`endPeriod` when
the corresponding date parameter is truthy). -/
structure EcbRequest where
  datasetId : String
  format : String
  startPeriod : Option String
  endPeriod : Option String
deriving DecidableEq, Repr

/-- The outcome of `self.session.get(...)`: a response carrying the
status code, what `response.json()` yields (`none` models
`json.JSONDecodeError`), and `response.text`; or a transport exception. -/
inductive FetchOutcome where
  | resp (status_code : Nat) (json : Option JVal) (text : String)
  | exn (msg : String)

/-- The network as the plugin sees it: a pure oracle from request to
outcome (each request in a query is issued sequentially and
independently, so a function models the session). -/
abbrev Network := EcbRequest → FetchOutcome

/-- The typed view of the `parameters` dict on the query path: the spec's
parameter model (series-code lists and optional ISO date strings).  A
field is `none` when the key is absent. -/
structure EcbParams where
  rate_types : Option (List String) := none
  inflation_types : Option (List String) := none
  start_date : Option String := none
  end_date : Option String := none

/-- `if start_date: params["startPeriod"] = start_date` — the query-string
bound is attached only when the value is present and truthy. -/
def truthyParam : Option String → Option String
  | some s => if s.data.isEmpty then none else some s
  | none => none

/-- The per-series body of the fetch loop (lines 143-210 of
`_get_interest_rates`, identical in `_get_inflation_rates`): fetch in
the structured format; on HTTP 200 parse the JSON body, falling back to
a `csvdata` retry of the same request when `response.json()` raises; on
non-200 or a transport exception record the error string. -/
def fetchSeries (net : Network) (rate_type dataset_id : String)
    (sd ed : Option String) : Series :=
  match net ⟨dataset_id, "jsondata", sd, ed⟩ with
  | .exn e => .err ("Request failed for " ++ rate_type ++ ": " ++ e)
  | .resp status json _ =>
    if status == 200 then
      match json with
      | some data => parse_ecb_json_data data
      | none =>
        match net ⟨dataset_id, "csvdata", sd, ed⟩ with
        | .exn e => .err ("Request failed for " ++ rate_type ++ ": " ++ e)
        | .resp status2 _ text2 =>
          if status2 == 200 then parse_ecb_csv_data text2
          else .err ("CSV fetch failed: HTTP " ++ natRepr status2)
    else .err ("Failed to fetch " ++ rate_type ++ ": HTTP " ++ natRepr status)

/-- `results[key] = value` on a Python dict: overwrite the first (in a
dict: only) occurrence in place, else append. -/
def dictSet (d : List (String × α)) (k : String) (v : α) : List (String × α) :=
  match d with
  | [] => [(k, v)]
  | p :: rest => if p.1 == k then (k, v) :: rest else p :: dictSet rest k v

/-- `results.get(key)` on the accumulated results dict. -/
def dictGet (d : List (String × α)) (k : String) : Option α :=
  (d.find? (fun p => p.1 == k)).map Prod.snd

/-- The fetch loop of `_get_interest_rates` / `_get_inflation_rates`:
for each requested code, only codes present in `mappings` are fetched
and stored; unknown codes are skipped without a trace. -/
def buildResults (mappings : List (String × String)) (net : Network)
    (sd ed : Option String) :
    List String → List (String × Series) → List (String × Series)
  | [], results => results
  | rt :: rest, results =>
    match dictGet mappings rt with
    | some dataset_id =>
      buildResults mappings net sd ed rest
        (dictSet results rt (fetchSeries net rt dataset_id sd ed))
    | none => buildResults mappings net sd ed rest results

/-- The `{success, data|error, message, ...}` envelope every plugin and
the data manager return; absent dict keys are `none`. -/
structure QueryResult where
  success : Bool
  data : Option (List (String × Series)) := none
  error : Option String := none
  message : Option String := none
  validation_errors : Option (List String) := none
  suggestions : Option (List String) := none

/-- `ECBDataSource._get_interest_rates` (lines 118-216). -/
def get_interest_rates (net : Network) (parameters : EcbParams) : QueryResult :=
  let rate_types := parameters.rate_types.getD ["MRR", "DFR", "MLF"]
  let sd := truthyParam parameters.start_date
  let ed := truthyParam parameters.end_date
  let results := buildResults rate_mappings net sd ed rate_types []
  { success := true,
    data := some results,
    message := some ("Successfully fetched ECB rates: " ++ joinComma rate_types) }

/-- `ECBDataSource._get_inflation_rates` (lines 218-316). -/
def get_inflation_rates (net : Network) (parameters : EcbParams) : QueryResult :=
  let inflation_types := parameters.inflation_types.getD ["HICP"]
  let sd := truthyParam parameters.start_date
  let ed := truthyParam parameters.end_date
  let results := buildResults inflation_mappings net sd ed inflation_types []
  { success := true,
    data := some results,
    message := some ("Successfully fetched ECB inflation data: " ++
                     joinComma inflation_types) }

/-- `ECBDataSource.query_data` (lines 73-116): dispatch on the dataset
type; unrecognized types get the `success=False` envelope.  (The
enclosing `try` never fires on this path: the helpers above are total.) -/
def ecb_query_data (net : Network) (dataset_type : String)
    (parameters : EcbParams) : QueryResult :=
  if dataset_type == "interest_rates" then get_interest_rates net parameters
  else if dataset_type == "inflation_rates" then get_inflation_rates net parameters
  else
    { success := false,
      error := some ("Dataset type '" ++ dataset_type ++ "' not yet implemented"),
      message := some "Only interest_rates and inflation_rates datasets are currently supported" }

/-! ## The data manager -/

/-- A registered source plugin, as the manager's `query_data` uses one:
its `validate_parameters` (which may raise) and its `query_data`. -/
structure Source where
  validate_parameters : String → Params → Except String ValidationResult
  query_data : String → Params → QueryResult
  name : String

/-- The registry's `_sources` dict: source id to plugin, in registration
order. -/
abbrev Registry := List (String × Source)

/-- `DataManager.query_data` (lines 51-121): look the source up (a
structured not-found envelope naming the registered ids when absent),
validate (a structured envelope embedding the errors and suggestions
when invalid), else delegate and return the plugin's result unchanged.
The result is `.error e` when the Python code would raise `e` (only a
raising plugin `validate_parameters` can cause that). -/
def manager_query_data (reg : Registry) (source_id dataset_type : String)
    (parameters : Params) : Except String QueryResult :=
  match dictGet reg source_id with
  | none =>
    .ok { success := false,
          error := some ("Data source '" ++ source_id ++ "' not found"),
          message := some ("Available sources: " ++
                           pyReprVal (.vlist ((reg.map Prod.fst).map PyVal.vstr))) }
  | some source =>
    match source.validate_parameters dataset_type parameters with
    | .error e => .error e
    | .ok validation =>
      if !validation.valid then
        .ok { success := false,
              error := some "Parameter validation failed",
              validation_errors := some validation.errors,
              suggestions := some validation.suggestions,
              message := some "Please check your parameters and try again" }
      else .ok (source.query_data dataset_type parameters)

/-! ## Spec-side definitions used by the theorem statements -/

/-- First element of an observation tuple (`obs[0]`); the parser only
reads it through a non-emptiness guard. -/
def headVal : List JVal → JVal
  | v :: _ => v
  | [] => .null

/-- A structured payload of the shape §4.1 of the spec describes: one
dataset carrying one series `key` with the given observation entries,
and a date-dimension values array. -/
def mkEcbPayload (key : String) (entries : List (String × JVal))
    (vals : List JVal) : JVal :=
  .obj [("dataSets",
          .arr [.obj [("series",
                       .obj [(key, .obj [("observations", .obj entries)])])]]),
        ("structure",
          .obj [("dimensions",
                 .obj [("observation",
                        .arr [.obj [("values", .arr vals)]])])])]

/-- Whether an error string is the date-format error for `field`:
`validate_parameters` renders it as `"Invalid <field> format: <value>"`. -/
def isDateFormatErrorFor (field e : String) : Bool :=
  strHasPrefix ("Invalid " ++ field ++ " format:") e

/-- Whether a value is not a list (lists are unhashable dict-membership
operands). -/
def nonListVal : PyVal → Bool
  | .vlist _ => false
  | _ => true

/-- A `rate_types`/`inflation_types` value on which the validation
branch cannot raise: falsy, or an iterable whose elements are hashable
(a list of non-lists, or a string). -/
def validSeriesTypesVal : PyVal → Bool
  | .vlist xs => xs.all nonListVal
  | .vstr _ => true
  | .vint n => n == 0
  | .vnone => true

/-- A `start_date`/`end_date` value on which the date check cannot
raise: a string or `None`. -/
def validDateVal : PyVal → Bool
  | .vstr _ => true
  | .vnone => true
  | _ => false

/-! ## Concrete inputs for the witness theorems -/

/-- A network on which every request fails with HTTP 404. -/
def demoNet404 : Network := fun _ => .resp 404 none ""

/-- A network whose structured-format body is not decodable JSON and
whose delimited-text retry succeeds. -/
def demoNetCsv : Network := fun req =>
  if req.format == "jsondata" then .resp 200 none ""
  else .resp 200 none "DATE,OBS\n2023-01-01,2.5"

/-- A network that answers HTTP 404 for the MRR dataset and a good
structured payload for every other dataset. -/
def demoNetMixed : Network := fun req =>
  if req.datasetId == "FM/B.U2.EUR.4F.KR.MRR_FR.LEV" then .resp 404 none ""
  else
    .resp 200
      (some (mkEcbPayload "0:0:0:0:0" [("0", .arr [.num (.dec 250 (-2))])]
              [.obj [("id", .str "2023-01-01")]]))
      ""

/-- A registered plugin for the manager witnesses: the ECB validation
rules and a stub query. -/
def demoSource : Source :=
  { validate_parameters := fun dt ps => validate_parameters dt ps,
    query_data := fun _ _ => { success := true, message := some "plugin ran" },
    name := "European Central Bank Statistical Data Warehouse" }

/-- A registry holding the one demo source under id `ecb`. -/
def demoRegistry : Registry := [("ecb", demoSource)]

/-! ## Helper lemmas -/

theorem strHasPrefixChars_of_prefix (p t x : List Char)
    (h : strHasPrefixChars p t = true) : strHasPrefixChars p (t ++ x) = true := by
  induction p generalizing t with
  | nil => rfl
  | cons a ps ih =>
    cases t with
    | nil => simp [strHasPrefixChars] at h
    | cons b ts =>
      simp only [strHasPrefixChars, Bool.and_eq_true] at h
      simp only [List.cons_append, strHasPrefixChars, Bool.and_eq_true]
      exact ⟨h.1, ih ts h.2⟩

theorem strHasPrefixChars_append_false (p t x : List Char)
    (hp : strHasPrefixChars (p.take t.length) t = false) :
    strHasPrefixChars p (t ++ x) = false := by
  induction p generalizing t with
  | nil => simp [strHasPrefixChars] at hp
  | cons a ps ih =>
    cases t with
    | nil => simp [strHasPrefixChars] at hp
    | cons b ts =>
      simp only [List.length_cons, List.take_succ_cons, strHasPrefixChars] at hp
      simp only [List.cons_append, strHasPrefixChars]
      cases hab : a == b with
      | false => simp
      | true =>
        simp only [hab, Bool.true_and] at hp ⊢
        exact ih ts hp

theorem strHasPrefix_append_true (p t x : String)
    (h : strHasPrefixChars p.data t.data = true) :
    strHasPrefix p (t ++ x) = true := by
  unfold strHasPrefix
  rw [String.data_append]
  exact strHasPrefixChars_of_prefix _ _ _ h

theorem strHasPrefix_append_fixed_false (p t x : String)
    (hp : strHasPrefixChars (p.data.take t.data.length) t.data = false) :
    strHasPrefix p (t ++ x) = false := by
  unfold strHasPrefix
  rw [String.data_append]
  exact strHasPrefixChars_append_false _ _ _ hp

theorem dictGet_dictSet_self (d : List (String × α)) (k : String) (v : α) :
    dictGet (dictSet d k v) k = some v := by
  induction d with
  | nil => simp [dictSet, dictGet, List.find?]
  | cons p rest ih =>
    by_cases hp : (p.1 == k) = true
    · simp [dictSet, hp, dictGet, List.find?]
    · rw [Bool.not_eq_true] at hp
      simp only [dictSet, hp, Bool.false_eq_true, if_false]
      simp only [dictGet, List.find?, hp] at ih ⊢
      exact ih

theorem dictGet_dictSet_ne (d : List (String × α)) (k k2 : String) (v : α)
    (h : k2 ≠ k) : dictGet (dictSet d k v) k2 = dictGet d k2 := by
  have hkk2 : (k == k2) = false := beq_eq_false_iff_ne.mpr (Ne.symm h)
  induction d with
  | nil => simp [dictSet, dictGet, List.find?, hkk2]
  | cons p rest ih =>
    by_cases hp : (p.1 == k) = true
    · have hp2 : (p.1 == k2) = false := by
        rw [eq_of_beq hp]; exact hkk2
      simp [dictSet, hp, dictGet, List.find?, hkk2, hp2]
    · rw [Bool.not_eq_true] at hp
      simp only [dictSet, hp, Bool.false_eq_true, if_false]
      by_cases hq : (p.1 == k2) = true
      · simp [dictGet, List.find?, hq]
      · rw [Bool.not_eq_true] at hq
        simp only [dictGet, List.find?, hq] at ih ⊢
        exact ih

theorem buildResults_lookup_notin (m : List (String × String)) (net : Network)
    (sd ed : Option String) (rts : List String) (acc : List (String × Series))
    (rt : String) (h : rt ∉ rts) :
    dictGet (buildResults m net sd ed rts acc) rt = dictGet acc rt := by
  induction rts generalizing acc with
  | nil => rfl
  | cons r rest ih =>
    have hne : rt ≠ r := fun he => h (he ▸ List.mem_cons_self r rest)
    have hrest : rt ∉ rest := fun hm => h (List.mem_cons_of_mem _ hm)
    unfold buildResults
    cases hm : dictGet m r with
    | some did => rw [ih _ hrest, dictGet_dictSet_ne _ _ _ _ hne]
    | none => exact ih _ hrest

theorem buildResults_lookup_unmapped (m : List (String × String)) (net : Network)
    (sd ed : Option String) (rts : List String) (acc : List (String × Series))
    (rt : String) (h : dictGet m rt = none) :
    dictGet (buildResults m net sd ed rts acc) rt = dictGet acc rt := by
  induction rts generalizing acc with
  | nil => rfl
  | cons r rest ih =>
    unfold buildResults
    cases hm : dictGet m r with
    | some did =>
      have hne : rt ≠ r := by
        intro he
        rw [he, hm] at h
        exact Option.noConfusion h
      rw [ih _, dictGet_dictSet_ne _ _ _ _ hne]
    | none => exact ih _

theorem buildResults_lookup_mem (m : List (String × String)) (net : Network)
    (sd ed : Option String) (rts : List String) (acc : List (String × Series))
    (rt did : String) (h : rt ∈ rts) (hm : dictGet m rt = some did) :
    dictGet (buildResults m net sd ed rts acc) rt =
      some (fetchSeries net rt did sd ed) := by
  induction rts generalizing acc with
  | nil => cases h
  | cons r rest ih =>
    by_cases hmem : rt ∈ rest
    · unfold buildResults
      cases hm2 : dictGet m r with
      | some d2 => exact ih _ hmem
      | none => exact ih _ hmem
    · have hrt : rt = r := by
        rcases List.mem_cons.mp h with h1 | h2
        · exact h1
        · exact absurd h2 hmem
      subst hrt
      unfold buildResults
      rw [hm]
      rw [buildResults_lookup_notin m net sd ed rest _ rt hmem,
          dictGet_dictSet_self]

theorem csvLoop_eq_filterMap (ls : List String) (acc : List Obs) :
    csvLoop ls acc = acc ++ ls.filterMap csvLineObs := by
  induction ls generalizing acc with
  | nil => simp [csvLoop]
  | cons line rest ih =>
    unfold csvLoop
    cases hs : pySplit line ',' with
    | nil =>
      rw [List.filterMap_cons]
      simp only [csvLineObs, hs]
      exact ih acc
    | cons d tail =>
      cases tail with
      | nil =>
        rw [List.filterMap_cons]
        simp only [csvLineObs, hs]
        exact ih acc
      | cons v rest2 =>
        rw [List.filterMap_cons]
        simp only [csvLineObs, hs]
        rw [ih _]
        simp

/-! ## Claim theorems -/

/-- C1: for every network behavior and parameters, `query_data` on a
recognized dataset_type (`interest_rates` or `inflation_rates`) returns
an envelope with `success=true`, no top-level `error`, and a `data`
mapping (per-series failures live only inside the Series slots of
`data`, which quantifying over every network `net` — including one that
fails every request — shows); only an unrecognized dataset_type
produces a top-level `success=false` envelope. -/
theorem claim1_envelope_success (net : Network) (dataset_type : String)
    (ps : EcbParams) :
    ((dataset_type = "interest_rates" ∨ dataset_type = "inflation_rates") →
      (ecb_query_data net dataset_type ps).success = true ∧
      (ecb_query_data net dataset_type ps).error = none ∧
      (ecb_query_data net dataset_type ps).data.isSome = true) ∧
    (dataset_type ≠ "interest_rates" → dataset_type ≠ "inflation_rates" →
      (ecb_query_data net dataset_type ps).success = false ∧
      (ecb_query_data net dataset_type ps).data = none ∧
      (ecb_query_data net dataset_type ps).error.isSome = true) := by
  constructor
  · rintro (h | h) <;> subst h <;>
      simp [ecb_query_data, get_interest_rates, get_inflation_rates]
  · intro h1 h2
    have b1 : (dataset_type == "interest_rates") = false :=
      beq_eq_false_iff_ne.mpr h1
    have b2 : (dataset_type == "inflation_rates") = false :=
      beq_eq_false_iff_ne.mpr h2
    simp [ecb_query_data, b1, b2]

/-- Witness for C1 at concrete inputs: a network answering 404
everywhere still yields `success=true` for `interest_rates`, and an
unrecognized dataset type yields `success=false`. -/
theorem claim1_witness :
    (ecb_query_data demoNet404 "interest_rates" {}).success = true ∧
    (ecb_query_data demoNet404 "bogus" {}).success = false := by
  constructor
  · exact ((claim1_envelope_success demoNet404 "interest_rates" {}).1 (Or.inl rfl)).1
  · exact ((claim1_envelope_success demoNet404 "bogus" {}).2 (by decide) (by decide)).1

/-- C2: for a requested, mapped series code whose structured-format
response is HTTP 200 with an undecodable body (`response.json()`
raises), the plugin retries the same dataset and date bounds in the
`csvdata` representation: a 200 retry stores the delimited-text parse
of its body for that code, a non-200 retry records the CSV error string
for that code. -/
theorem claim2_csv_fallback (net : Network) (ps : EcbParams) (rt did t0 : String)
    (hmap : dictGet rate_mappings rt = some did)
    (hin : rt ∈ ps.rate_types.getD ["MRR", "DFR", "MLF"])
    (hjson : net ⟨did, "jsondata", truthyParam ps.start_date,
                  truthyParam ps.end_date⟩ = .resp 200 none t0) :
    ∀ status2 j2 t2,
      net ⟨did, "csvdata", truthyParam ps.start_date,
           truthyParam ps.end_date⟩ = .resp status2 j2 t2 →
      ((status2 = 200 →
          ∀ results,
            (ecb_query_data net "interest_rates" ps).data = some results →
            dictGet results rt = some (parse_ecb_csv_data t2)) ∧
       (status2 ≠ 200 →
          ∀ results,
            (ecb_query_data net "interest_rates" ps).data = some results →
            dictGet results rt =
              some (.err ("CSV fetch failed: HTTP " ++ natRepr status2)))) := by
  intro status2 j2 t2 hcsv
  have hdata : (ecb_query_data net "interest_rates" ps).data =
      some (buildResults rate_mappings net (truthyParam ps.start_date)
              (truthyParam ps.end_date) (ps.rate_types.getD ["MRR", "DFR", "MLF"]) []) := by
    simp [ecb_query_data, get_interest_rates]
  have hfetch : fetchSeries net rt did (truthyParam ps.start_date)
      (truthyParam ps.end_date) =
      (if status2 == 200 then parse_ecb_csv_data t2
       else .err ("CSV fetch failed: HTTP " ++ natRepr status2)) := by
    unfold fetchSeries
    rw [hjson, hcsv]
    simp
  constructor
  · intro h200 results hres
    have hr := Option.some.inj (hdata.symm.trans hres)
    subst hr
    rw [buildResults_lookup_mem _ _ _ _ _ _ _ _ hin hmap, hfetch]
    subst h200
    simp
  · intro hne results hres
    have hr := Option.some.inj (hdata.symm.trans hres)
    subst hr
    rw [buildResults_lookup_mem _ _ _ _ _ _ _ _ hin hmap, hfetch]
    have : (status2 == 200) = false := beq_eq_false_iff_ne.mpr hne
    simp [this]

/-- Witness for C2: a network whose structured body never decodes and
whose delimited retry succeeds stores the CSV parse for MRR. -/
theorem claim2_witness :
    dictGet ((ecb_query_data demoNetCsv "interest_rates"
        {rate_types := some ["MRR"]}).data.getD []) "MRR" =
      some (parse_ecb_csv_data "DATE,OBS\n2023-01-01,2.5") := by
  have h := (claim2_csv_fallback demoNetCsv {rate_types := some ["MRR"]} "MRR"
      "FM/B.U2.EUR.4F.KR.MRR_FR.LEV" "" rfl (by decide) rfl)
      200 none "DATE,OBS\n2023-01-01,2.5" rfl
  exact h.1 rfl _ rfl

/-- C4: the delimited-text parser returns the empty Series on fewer
than two lines; each data line with at least two comma-separated fields
contributes exactly the observation built from its first two fields
(quotes stripped from the date); shorter lines are skipped silently;
and the value is absent (`null`) — never zero and never an error — for
an empty field, the `.` sentinel, or an unparseable number. -/
theorem claim4_csv_line_semantics :
    (∀ s : String, (pySplit (pyStrip s) '\n').length < 2 →
       parse_ecb_csv_data s = .parsed [] 0) ∧
    (∀ s : String, ¬ (pySplit (pyStrip s) '\n').length < 2 →
       parse_ecb_csv_data s =
         .parsed ((pySplit (pyStrip s) '\n').tail.filterMap csvLineObs)
           ((pySplit (pyStrip s) '\n').tail.filterMap csvLineObs).length) ∧
    (∀ line : String, (pySplit line ',').length < 2 → csvLineObs line = none) ∧
    (∀ line d v rest, pySplit line ',' = d :: v :: rest →
       csvLineObs line = some ⟨.str (pyStripQuotes d), csvValue v⟩) ∧
    csvValue "" = .null ∧
    csvValue "." = .null ∧
    (∀ v, pyFloat? v = none → csvValue v = .null) ∧
    (∀ v n, v ≠ "" → v ≠ "." → pyFloat? v = some n → csvValue v = .num n) := by
  refine ⟨?_, ?_, ?_, ?_, rfl, rfl, ?_, ?_⟩
  · intro s h
    simp only [parse_ecb_csv_data]
    rw [if_pos h]
  · intro s h
    simp only [parse_ecb_csv_data]
    rw [if_neg h, csvLoop_eq_filterMap]
    simp
  · intro line h
    unfold csvLineObs
    cases hs : pySplit line ',' with
    | nil => rfl
    | cons d tail =>
      cases tail with
      | nil => rfl
      | cons v rest2 =>
        rw [hs] at h
        simp at h
        omega
  · intro line d v rest h
    simp only [csvLineObs, h]
  · intro v h
    unfold csvValue
    by_cases hc : (!v.data.isEmpty && v != ".") = true
    · rw [if_pos hc, h]
    · rw [if_neg hc]
  · intro v n h1 h2 h3
    have hd : v.data.isEmpty = false := by
      cases hv : v.data with
      | nil => exact absurd (String.ext (hv.trans rfl)) h1
      | cons a l => rfl
    have hb : (v != ".") = true := by
      have : (v == ".") = false := beq_eq_false_iff_ne.mpr h2
      simp [bne, this]
    unfold csvValue
    rw [hd, hb]
    simp only [Bool.not_false, Bool.true_and, if_true, h3]

/-- Witness for C4: a header-only input parses to the empty Series, the
`.` sentinel gives an absent value, and `2.5` parses as a number. -/
theorem claim4_witness :
    parse_ecb_csv_data "just a header" = .parsed [] 0 ∧
    csvValue "." = .null ∧
    csvValue "2.5" = .num (.dec 25 (-1)) := by
  refine ⟨claim4_csv_line_semantics.1 "just a header" (by decide),
          claim4_csv_line_semantics.2.2.2.2.2.1,
          claim4_csv_line_semantics.2.2.2.2.2.2.2 "2.5" (.dec 25 (-1))
            (by decide) (by decide) rfl⟩

/-- C5: both response parsers are total functions into the two-variant
Series type: the structured parser yields a parsed Series (whose count
is the number of observations) or the error-variant wrapped by its
catch-all boundary message, and the delimited-text parser always yields
a parsed Series; no exception escapes either embedding. -/
theorem claim5_parsers_total :
    (∀ j : JVal, (∃ obs, parse_ecb_json_data j = .parsed obs obs.length) ∨
       (∃ e, parse_ecb_json_data j = .err ("Failed to parse JSON data: " ++ e))) ∧
    (∀ s : String, ∃ obs, parse_ecb_csv_data s = .parsed obs obs.length) := by
  constructor
  · intro j
    unfold parse_ecb_json_data
    cases h : parseJsonBody j with
    | ok dps => exact Or.inl ⟨dps, rfl⟩
    | error e => exact Or.inr ⟨e, rfl⟩
  · intro s
    unfold parse_ecb_csv_data
    by_cases h : (pySplit (pyStrip s) '\n').length < 2
    · rw [if_pos h]; exact ⟨[], rfl⟩
    · rw [if_neg h]; exact ⟨_, rfl⟩

/-- C9: the manager's `query_data` short-circuits in exactly two ways
before the plugin runs — an unregistered source id yields a
`success=false` envelope naming that id and enumerating the registered
ids, and a `valid=false` validation yields a `success=false` envelope
embedding the validation errors and suggestions — and otherwise it
returns the plugin's result unchanged.  (The two short-circuit
envelopes are stated as closed records, so neither depends on the
plugin's `query_data`.) -/
theorem claim9_manager_short_circuits (reg : Registry)
    (source_id dataset_type : String) (ps : Params) :
    (dictGet reg source_id = none →
       manager_query_data reg source_id dataset_type ps =
         .ok { success := false,
               error := some ("Data source '" ++ source_id ++ "' not found"),
               message := some ("Available sources: " ++
                 pyReprVal (.vlist ((reg.map Prod.fst).map PyVal.vstr))) }) ∧
    (∀ src, dictGet reg source_id = some src →
       ∀ vr, src.validate_parameters dataset_type ps = .ok vr →
         ((vr.valid = false →
             manager_query_data reg source_id dataset_type ps =
               .ok { success := false,
                     error := some "Parameter validation failed",
                     validation_errors := some vr.errors,
                     suggestions := some vr.suggestions,
                     message := some "Please check your parameters and try again" }) ∧
          (vr.valid = true →
             manager_query_data reg source_id dataset_type ps =
               .ok (src.query_data dataset_type ps)))) := by
  constructor
  · intro h
    unfold manager_query_data
    rw [h]
  · intro src hsrc vr hvr
    constructor
    · intro hv
      simp [manager_query_data, hsrc, hvr, hv]
    · intro hv
      simp [manager_query_data, hsrc, hvr, hv]

/-- Witness for C9: with the demo registry, a valid query returns the
plugin result unchanged and an unknown id returns the not-found
envelope naming the registered ids. -/
theorem claim9_witness :
    manager_query_data demoRegistry "ecb" "interest_rates" [] =
      .ok (demoSource.query_data "interest_rates" []) ∧
    manager_query_data demoRegistry "nope" "interest_rates" [] =
      .ok { success := false,
            error := some "Data source 'nope' not found",
            message := some "Available sources: ['ecb']" } := by
  constructor
  · exact (((claim9_manager_short_circuits demoRegistry "ecb" "interest_rates" []).2
      demoSource rfl { valid := true, errors := [], suggestions := [] } rfl).2) rfl
  · exact ((claim9_manager_short_circuits demoRegistry "nope" "interest_rates" []).1
      rfl).trans (by rfl)

/-- C10: a requested rate code outside the rate mapping is silently
omitted from `data` (no Series and no error slot), while the envelope
still reports `success=true` and a message claiming a successful fetch
of the full requested list, omitted codes included. -/
theorem claim10_unknown_code_omitted (net : Network) (ps : EcbParams) (rt : String)
    (hmem : rt ∈ ps.rate_types.getD ["MRR", "DFR", "MLF"])
    (hunk : dictGet rate_mappings rt = none) :
    (ecb_query_data net "interest_rates" ps).success = true ∧
    (∀ results, (ecb_query_data net "interest_rates" ps).data = some results →
       dictGet results rt = none) ∧
    (ecb_query_data net "interest_rates" ps).message =
      some ("Successfully fetched ECB rates: " ++
            joinComma (ps.rate_types.getD ["MRR", "DFR", "MLF"])) := by
  have hdata : (ecb_query_data net "interest_rates" ps).data =
      some (buildResults rate_mappings net (truthyParam ps.start_date)
              (truthyParam ps.end_date) (ps.rate_types.getD ["MRR", "DFR", "MLF"]) []) := by
    simp [ecb_query_data, get_interest_rates]
  refine ⟨by simp [ecb_query_data, get_interest_rates], ?_, ?_⟩
  · intro results hres
    have hr := Option.some.inj (hdata.symm.trans hres)
    subst hr
    rw [buildResults_lookup_unmapped _ _ _ _ _ _ _ hunk]
    rfl
  · simp [ecb_query_data, get_interest_rates]

/-- Witness for C10: requesting `["XXX", "MRR"]` leaves no slot for
`XXX` while the message still names it. -/
theorem claim10_witness :
    (ecb_query_data demoNet404 "interest_rates"
        {rate_types := some ["XXX", "MRR"]}).success = true ∧
    dictGet ((ecb_query_data demoNet404 "interest_rates"
        {rate_types := some ["XXX", "MRR"]}).data.getD []) "XXX" = none ∧
    (ecb_query_data demoNet404 "interest_rates"
        {rate_types := some ["XXX", "MRR"]}).message =
      some "Successfully fetched ECB rates: XXX, MRR" := by
  have h := claim10_unknown_code_omitted demoNet404
    {rate_types := some ["XXX", "MRR"]} "XXX" (by decide) rfl
  exact ⟨h.1, h.2.1 _ rfl, h.2.2.trans (by rfl)⟩

/-! ## Validation inversion lemmas -/

theorem validate_parameters_ok_inv (dt : String) (ps : Params) (r : ValidationResult)
    (h : validate_parameters dt ps = .ok r) :
    ∃ e1 s1 e2 s2 e3 s3,
      datasetBranch dt ps = .ok (e1, s1) ∧
      checkDateParam ps "start_date" = .ok (e2, s2) ∧
      checkDateParam ps "end_date" = .ok (e3, s3) ∧
      r = ⟨(e1 ++ e2 ++ e3).isEmpty, e1 ++ e2 ++ e3, s1 ++ s2 ++ s3⟩ := by
  unfold validate_parameters at h
  cases hb : datasetBranch dt ps with
  | error e => rw [hb] at h; exact absurd h (by simp)
  | ok p1 =>
    rw [hb] at h
    obtain ⟨e1, s1⟩ := p1
    cases h2 : checkDateParam ps "start_date" with
    | error e => rw [h2] at h; exact absurd h (by simp)
    | ok p2 =>
      rw [h2] at h
      obtain ⟨e2, s2⟩ := p2
      cases h3 : checkDateParam ps "end_date" with
      | error e => rw [h3] at h; exact absurd h (by simp)
      | ok p3 =>
        rw [h3] at h
        obtain ⟨e3, s3⟩ := p3
        refine ⟨e1, s1, e2, s2, e3, s3, rfl, rfl, rfl, ?_⟩
        exact (Except.ok.inj h).symm

theorem datasetBranch_errors_shape (dt : String) (ps : Params)
    (e1 s1 : List String) (hb : datasetBranch dt ps = .ok (e1, s1)) :
    e1 = [] ∨ (∃ x, e1 = ["Invalid rate types: " ++ x]) ∨
    (∃ x, e1 = ["Invalid inflation types: " ++ x]) ∨
    e1 = ["Dataset type '" ++ dt ++ "' not supported"] := by
  unfold datasetBranch at hb
  split at hb
  · dsimp only at hb
    split at hb
    · split at hb
      · exact absurd hb (by simp)
      · split at hb
        · exact absurd hb (by simp)
        · split at hb
          · exact Or.inl (congrArg Prod.fst (Except.ok.inj hb)).symm
          · exact Or.inr (Or.inl ⟨_, (congrArg Prod.fst (Except.ok.inj hb)).symm⟩)
    · exact Or.inl (congrArg Prod.fst (Except.ok.inj hb)).symm
  · split at hb
    · dsimp only at hb
      split at hb
      · split at hb
        · exact absurd hb (by simp)
        · split at hb
          · exact absurd hb (by simp)
          · split at hb
            · exact Or.inl (congrArg Prod.fst (Except.ok.inj hb)).symm
            · exact Or.inr (Or.inr (Or.inl
                ⟨_, (congrArg Prod.fst (Except.ok.inj hb)).symm⟩))
      · exact Or.inl (congrArg Prod.fst (Except.ok.inj hb)).symm
    · exact Or.inr (Or.inr (Or.inr (congrArg Prod.fst (Except.ok.inj hb)).symm))

theorem checkDateParam_errors_shape (ps : Params) (g : String)
    (e sg : List String) (h : checkDateParam ps g = .ok (e, sg)) :
    e = [] ∨ ∃ s, ps.get g = some (.vstr s) ∧ strptimeOk s = false ∧
      e = ["Invalid " ++ g ++ " format: " ++ s] := by
  unfold checkDateParam at h
  split at h
  · exact Or.inl (congrArg Prod.fst (Except.ok.inj h)).symm
  · rename_i v heq
    split at h
    · exact Or.inl (congrArg Prod.fst (Except.ok.inj h)).symm
    · rename_i s
      split at h
      · exact Or.inl (congrArg Prod.fst (Except.ok.inj h)).symm
      · rename_i hst
        exact Or.inr ⟨s, heq, by simpa using hst,
          (congrArg Prod.fst (Except.ok.inj h)).symm⟩
    · exact absurd h (by simp)

theorem checkDateParam_of_vstr (ps : Params) (g s : String)
    (hget : ps.get g = some (.vstr s)) :
    checkDateParam ps g =
      .ok (if strptimeOk s then ([], [])
           else (["Invalid " ++ g ++ " format: " ++ s],
                 [g ++ " should be in YYYY-MM-DD format"])) := by
  unfold checkDateParam
  rw [hget]
  dsimp only
  by_cases hst : strptimeOk s = true
  · rw [if_pos hst, if_pos hst]
  · rw [if_neg hst, if_neg hst]

theorem pyFilterNotInKeys_map_vstr (keys : List String) (codes : List String) :
    pyFilterNotInKeys keys (codes.map .vstr) =
      .ok ((codes.filter (fun c => !keys.contains c)).map .vstr) := by
  induction codes with
  | nil => rfl
  | cons c rest ih =>
    simp only [List.map_cons, pyFilterNotInKeys, pyInStrKeys, ih, List.filter_cons]
    cases hc : keys.contains c with
    | true => simp
    | false => simp

theorem strHasPrefixChars_peel (a b c : List Char) :
    strHasPrefixChars (a ++ b) (a ++ c) = strHasPrefixChars b c := by
  induction a with
  | nil => rfl
  | cons x xs ih => simp [strHasPrefixChars, ih]

theorem dateErr_self (f s : String) :
    isDateFormatErrorFor f ("Invalid " ++ f ++ " format: " ++ s) = true := by
  simp only [isDateFormatErrorFor, strHasPrefix, String.data_append,
    List.append_assoc]
  rw [strHasPrefixChars_peel, strHasPrefixChars_peel]
  exact strHasPrefixChars_of_prefix _ _ _ (by decide)

theorem not_dateErr_cross (f g s : String)
    (hfg : (f = "start_date" ∧ g = "end_date") ∨
           (f = "end_date" ∧ g = "start_date")) :
    isDateFormatErrorFor f ("Invalid " ++ g ++ " format: " ++ s) = false := by
  rcases hfg with ⟨rfl, rfl⟩ | ⟨rfl, rfl⟩ <;>
    simp only [isDateFormatErrorFor, strHasPrefix, String.data_append,
      List.append_assoc] <;>
    rw [strHasPrefixChars_peel] <;>
    exact strHasPrefixChars_append_false _ _ _ (by decide)

theorem not_dateErr_rate (f x : String)
    (hf : f = "start_date" ∨ f = "end_date") :
    isDateFormatErrorFor f ("Invalid rate types: " ++ x) = false := by
  rcases hf with rfl | rfl <;>
    simp only [isDateFormatErrorFor, strHasPrefix, String.data_append,
      List.append_assoc] <;>
    exact strHasPrefixChars_append_false _ _ _ (by decide)

theorem not_dateErr_inflation (f x : String)
    (hf : f = "start_date" ∨ f = "end_date") :
    isDateFormatErrorFor f ("Invalid inflation types: " ++ x) = false := by
  rcases hf with rfl | rfl <;>
    simp only [isDateFormatErrorFor, strHasPrefix, String.data_append,
      List.append_assoc] <;>
    exact strHasPrefixChars_append_false _ _ _ (by decide)

theorem not_dateErr_dataset (f dt : String)
    (hf : f = "start_date" ∨ f = "end_date") :
    isDateFormatErrorFor f ("Dataset type '" ++ dt ++ "' not supported") = false := by
  rcases hf with rfl | rfl <;>
    simp only [isDateFormatErrorFor, strHasPrefix, String.data_append,
      List.append_assoc] <;>
    exact strHasPrefixChars_append_false _ _ _ (by decide)

theorem datasetBranch_no_date_error (dt : String) (ps : Params)
    (e1 s1 : List String) (hb : datasetBranch dt ps = .ok (e1, s1))
    (f : String) (hf : f = "start_date" ∨ f = "end_date") :
    e1.countP (fun e => isDateFormatErrorFor f e) = 0 := by
  rcases datasetBranch_errors_shape dt ps e1 s1 hb with h | ⟨x, h⟩ | ⟨x, h⟩ | h <;>
    subst h
  · rfl
  · simp [List.countP_cons, not_dateErr_rate f x hf]
  · simp [List.countP_cons, not_dateErr_inflation f x hf]
  · simp [List.countP_cons, not_dateErr_dataset f dt hf]

theorem countP_singleton_zero (p : String → Bool) (x : String)
    (h : p x = false) : List.countP p [x] = 0 := by
  simp [List.countP_cons, h]

theorem countP_singleton_one (p : String → Bool) (x : String)
    (h : p x = true) : List.countP p [x] = 1 := by
  simp [List.countP_cons, h]

/-- C7: for a string-valued `start_date` or `end_date` parameter,
`validate_parameters` reports no date-format error for that field when
the string parses as `%Y-%m-%d`, and exactly one date-format error
naming that field when it does not — counted across the whole
accumulated error list, whatever the dataset branch contributed. -/
theorem claim7_date_format_errors (dt : String) (ps : Params)
    (r : ValidationResult) (f s : String)
    (hf : f = "start_date" ∨ f = "end_date")
    (hok : validate_parameters dt ps = .ok r)
    (hget : ps.get f = some (.vstr s)) :
    r.errors.countP (fun e => isDateFormatErrorFor f e) =
      (if strptimeOk s then 0 else 1) := by
  obtain ⟨e1, s1, e2, s2, e3, s3, hb, hd2, hd3, hr⟩ :=
    validate_parameters_ok_inv dt ps r hok
  subst hr
  show (e1 ++ e2 ++ e3).countP _ = _
  rw [List.countP_append, List.countP_append]
  have he1 := datasetBranch_no_date_error dt ps e1 s1 hb f hf
  rcases hf with rfl | rfl
  · have h2 := checkDateParam_of_vstr ps "start_date" s hget
    have hee := Except.ok.inj (hd2.symm.trans h2)
    have he3 : e3.countP (fun e => isDateFormatErrorFor "start_date" e) = 0 := by
      rcases checkDateParam_errors_shape ps "end_date" e3 s3 hd3 with
        h | ⟨sx, _, _, h⟩ <;> subst h
      · rfl
      · exact countP_singleton_zero _ _
          (not_dateErr_cross "start_date" "end_date" sx (Or.inl ⟨rfl, rfl⟩))
    by_cases hst : strptimeOk s = true
    · rw [if_pos hst] at hee
      have he2 : e2 = [] := congrArg Prod.fst hee
      rw [he1, he2, he3, if_pos hst]
      rfl
    · rw [if_neg hst] at hee
      have he2 : e2 = ["Invalid " ++ "start_date" ++ " format: " ++ s] :=
        congrArg Prod.fst hee
      rw [he1, he2, he3, if_neg hst,
        countP_singleton_one _ _ (dateErr_self "start_date" s)]
  · have h3 := checkDateParam_of_vstr ps "end_date" s hget
    have hee := Except.ok.inj (hd3.symm.trans h3)
    have he2 : e2.countP (fun e => isDateFormatErrorFor "end_date" e) = 0 := by
      rcases checkDateParam_errors_shape ps "start_date" e2 s2 hd2 with
        h | ⟨sx, _, _, h⟩ <;> subst h
      · rfl
      · exact countP_singleton_zero _ _
          (not_dateErr_cross "end_date" "start_date" sx (Or.inr ⟨rfl, rfl⟩))
    by_cases hst : strptimeOk s = true
    · rw [if_pos hst] at hee
      have he3 : e3 = [] := congrArg Prod.fst hee
      rw [he1, he2, he3, if_pos hst]
      rfl
    · rw [if_neg hst] at hee
      have he3 : e3 = ["Invalid " ++ "end_date" ++ " format: " ++ s] :=
        congrArg Prod.fst hee
      rw [he1, he2, he3, if_neg hst,
        countP_singleton_one _ _ (dateErr_self "end_date" s)]

/-- Witness for C7: a well-formed date yields zero date-format errors,
a malformed one yields exactly one. -/
theorem claim7_witness :
    (∃ r, validate_parameters "interest_rates"
        [("start_date", PyVal.vstr "2023-01-05")] = .ok r ∧
      r.errors.countP (fun e => isDateFormatErrorFor "start_date" e) = 0) ∧
    (∃ r, validate_parameters "interest_rates"
        [("start_date", PyVal.vstr "2023-13-01")] = .ok r ∧
      r.errors.countP (fun e => isDateFormatErrorFor "start_date" e) = 1) := by
  constructor
  · refine ⟨_, rfl, ?_⟩
    have h := claim7_date_format_errors "interest_rates"
      [("start_date", PyVal.vstr "2023-01-05")] _ "start_date" "2023-01-05"
      (Or.inl rfl) rfl rfl
    exact h.trans (by decide)
  · refine ⟨_, rfl, ?_⟩
    have h := claim7_date_format_errors "interest_rates"
      [("start_date", PyVal.vstr "2023-13-01")] _ "start_date" "2023-13-01"
      (Or.inl rfl) rfl rfl
    exact h.trans (by decide)

theorem datasetBranch_interest_invalid (ps : Params) (codes : List String)
    (hrt : ps.get "rate_types" = some (.vlist (codes.map .vstr)))
    (hinv : codes.filter (fun c => !(rate_mappings.map Prod.fst).contains c) ≠ []) :
    datasetBranch "interest_rates" ps =
      .ok (["Invalid rate types: " ++ pyReprVal (.vlist
              ((codes.filter
                (fun c => !(rate_mappings.map Prod.fst).contains c)).map .vstr))],
           ["Valid rate types are: " ++
            pyReprVal (.vlist ((rate_mappings.map Prod.fst).map PyVal.vstr))]) := by
  have hcodes : codes ≠ [] := by
    intro h
    subst h
    simp at hinv
  have htr : pyTruthy (PyVal.vlist (codes.map PyVal.vstr)) = true := by
    cases codes with
    | nil => exact absurd rfl hcodes
    | cons c cs => rfl
  have hne : ((codes.filter
      (fun c => !(rate_mappings.map Prod.fst).contains c)).map PyVal.vstr).isEmpty
        ≠ true := by
    cases hfl : codes.filter (fun c => !(rate_mappings.map Prod.fst).contains c) with
    | nil => exact absurd hfl hinv
    | cons a l => simp
  unfold datasetBranch
  rw [if_pos (show ("interest_rates" == "interest_rates") = true from rfl), hrt]
  dsimp only [Option.getD]
  rw [if_pos htr]
  dsimp only [pyIter]
  rw [pyFilterNotInKeys_map_vstr]
  dsimp only
  rw [if_neg hne]

/-- C8: a `rate_types` list for `interest_rates` containing at least one
code outside the mapping vocabulary yields `valid=false`, a first error
rendering exactly the invalid codes (the requested list filtered to the
codes outside the vocabulary, in request order), a first suggestion
listing the valid codes, and — showing accumulation rather than
short-circuiting — a malformed `start_date` still contributes its own
error to the same list. -/
theorem claim8_invalid_rate_types (ps : Params) (codes : List String)
    (r : ValidationResult)
    (hrt : ps.get "rate_types" = some (.vlist (codes.map .vstr)))
    (hinv : codes.filter (fun c => !(rate_mappings.map Prod.fst).contains c) ≠ [])
    (hok : validate_parameters "interest_rates" ps = .ok r) :
    r.valid = false ∧
    r.errors.head? = some ("Invalid rate types: " ++ pyReprVal (.vlist
      ((codes.filter
        (fun c => !(rate_mappings.map Prod.fst).contains c)).map .vstr))) ∧
    r.suggestions.head? = some "Valid rate types are: ['MRR', 'DFR', 'MLF']" ∧
    (∀ sd, ps.get "start_date" = some (.vstr sd) → strptimeOk sd = false →
       ("Invalid start_date format: " ++ sd) ∈ r.errors) := by
  obtain ⟨e1, s1, e2, s2, e3, s3, hb, hd2, hd3, hr⟩ :=
    validate_parameters_ok_inv _ _ _ hok
  have hpair := Except.ok.inj
    (hb.symm.trans (datasetBranch_interest_invalid ps codes hrt hinv))
  have he1 := congrArg Prod.fst hpair
  have hs1 := congrArg Prod.snd hpair
  subst hr he1 hs1
  refine ⟨rfl, rfl, rfl, ?_⟩
  intro sd hgetsd hbad
  have h2 := checkDateParam_of_vstr ps "start_date" sd hgetsd
  rw [if_neg (by simp [hbad])] at h2
  have he2 := congrArg Prod.fst (Except.ok.inj (hd2.symm.trans h2))
  subst he2
  show _ ∈ _ ++ _ ++ _
  refine List.mem_append.mpr (Or.inl (List.mem_append.mpr (Or.inr ?_)))
  exact List.mem_singleton.mpr rfl

/-- Witness for C8: requesting `["XXX", "MRR"]` with a malformed
`start_date` accumulates both the rate error (naming only `XXX`) and
the date error. -/
theorem claim8_witness :
    ∃ r, validate_parameters "interest_rates"
        [("rate_types", PyVal.vlist [PyVal.vstr "XXX", PyVal.vstr "MRR"]),
         ("start_date", PyVal.vstr "bad")] = .ok r ∧
      r.valid = false ∧
      r.errors.head? = some "Invalid rate types: ['XXX']" ∧
      r.suggestions.head? = some "Valid rate types are: ['MRR', 'DFR', 'MLF']" ∧
      ("Invalid start_date format: bad") ∈ r.errors := by
  refine ⟨_, rfl, ?_⟩
  have h := claim8_invalid_rate_types
    [("rate_types", PyVal.vlist [PyVal.vstr "XXX", PyVal.vstr "MRR"]),
     ("start_date", PyVal.vstr "bad")] ["XXX", "MRR"] _ rfl (by decide) rfl
  exact ⟨h.1, h.2.1.trans (by rfl), h.2.2.1, h.2.2.2 "bad" rfl (by decide)⟩

/-- C6 counterexample: `validate_parameters` does NOT always return a
ValidationResult — a non-string `start_date` raises `TypeError`
(`datetime.strptime` only has its `ValueError` caught), modelled here
as the uncaught-exception variant. -/
theorem claim6_counterexample :
    validate_parameters "interest_rates" [("start_date", PyVal.vint 20230101)] =
      .error "TypeError: strptime() argument 1 must be str, not int" := rfl

theorem pyFilterNotInKeys_ok_of_no_list (keys : List String) (vs : List PyVal)
    (h : vs.all nonListVal = true) :
    ∃ out, pyFilterNotInKeys keys vs = .ok out := by
  induction vs with
  | nil => exact ⟨[], rfl⟩
  | cons v rest ih =>
    simp only [List.all_cons, Bool.and_eq_true] at h
    obtain ⟨out, hout⟩ := ih h.2
    cases v with
    | vstr s =>
      refine ⟨if keys.contains s then out else .vstr s :: out, ?_⟩
      simp [pyFilterNotInKeys, pyInStrKeys, hout]
    | vint n =>
      refine ⟨.vint n :: out, ?_⟩
      simp [pyFilterNotInKeys, pyInStrKeys, hout]
    | vnone =>
      refine ⟨.vnone :: out, ?_⟩
      simp [pyFilterNotInKeys, pyInStrKeys, hout]
    | vlist xs => simp [nonListVal] at h

theorem checkDateParam_ok (ps : Params) (g : String)
    (h : ∀ v, ps.get g = some v → validDateVal v = true) :
    ∃ out, checkDateParam ps g = .ok out := by
  unfold checkDateParam
  cases hg : ps.get g with
  | none => exact ⟨_, rfl⟩
  | some v =>
    have hv := h v hg
    cases v with
    | vnone => exact ⟨_, rfl⟩
    | vstr s =>
      dsimp only
      by_cases hst : strptimeOk s = true
      · rw [if_pos hst]
        exact ⟨_, rfl⟩
      · rw [if_neg hst]
        exact ⟨_, rfl⟩
    | vint n => simp [validDateVal] at hv
    | vlist xs => simp [validDateVal] at hv

theorem datasetBranch_ok (dt : String) (ps : Params)
    (h1 : ∀ v, ps.get "rate_types" = some v → validSeriesTypesVal v = true)
    (h2 : ∀ v, ps.get "inflation_types" = some v → validSeriesTypesVal v = true) :
    ∃ out, datasetBranch dt ps = .ok out := by
  unfold datasetBranch
  by_cases hd1 : (dt == "interest_rates") = true
  · rw [if_pos hd1]
    cases hg : ps.get "rate_types" with
    | none =>
      dsimp only [Option.getD]
      rw [if_neg (by decide)]
      exact ⟨_, rfl⟩
    | some v =>
      have hv := h1 v hg
      dsimp only [Option.getD]
      by_cases ht : pyTruthy v = true
      · rw [if_pos ht]
        cases v with
        | vstr s =>
          dsimp only [pyIter]
          have hall : (s.data.map
              (fun c => PyVal.vstr (String.singleton c))).all nonListVal = true :=
            List.all_eq_true.mpr (fun x hx => by
              obtain ⟨c, _, rfl⟩ := List.mem_map.mp hx
              rfl)
          obtain ⟨out, hout⟩ := pyFilterNotInKeys_ok_of_no_list _ _ hall
          rw [hout]
          dsimp only
          by_cases hie : out.isEmpty = true
          · rw [if_pos hie]; exact ⟨_, rfl⟩
          · rw [if_neg hie]; exact ⟨_, rfl⟩
        | vint n =>
          have hn : n = 0 := by simpa [validSeriesTypesVal] using hv
          subst hn
          simp [pyTruthy] at ht
        | vnone => simp [pyTruthy] at ht
        | vlist xs =>
          dsimp only [pyIter]
          obtain ⟨out, hout⟩ := pyFilterNotInKeys_ok_of_no_list
            (rate_mappings.map Prod.fst) xs (by simpa [validSeriesTypesVal] using hv)
          rw [hout]
          dsimp only
          by_cases hie : out.isEmpty = true
          · rw [if_pos hie]; exact ⟨_, rfl⟩
          · rw [if_neg hie]; exact ⟨_, rfl⟩
      · rw [if_neg ht]; exact ⟨_, rfl⟩
  · rw [if_neg hd1]
    by_cases hd2 : (dt == "inflation_rates") = true
    · rw [if_pos hd2]
      cases hg : ps.get "inflation_types" with
      | none =>
        dsimp only [Option.getD]
        rw [if_neg (by decide)]
        exact ⟨_, rfl⟩
      | some v =>
        have hv := h2 v hg
        dsimp only [Option.getD]
        by_cases ht : pyTruthy v = true
        · rw [if_pos ht]
          cases v with
          | vstr s =>
            dsimp only [pyIter]
            have hall : (s.data.map
                (fun c => PyVal.vstr (String.singleton c))).all nonListVal = true :=
              List.all_eq_true.mpr (fun x hx => by
                obtain ⟨c, _, rfl⟩ := List.mem_map.mp hx
                rfl)
            obtain ⟨out, hout⟩ := pyFilterNotInKeys_ok_of_no_list _ _ hall
            rw [hout]
            dsimp only
            by_cases hie : out.isEmpty = true
            · rw [if_pos hie]; exact ⟨_, rfl⟩
            · rw [if_neg hie]; exact ⟨_, rfl⟩
          | vint n =>
            have hn : n = 0 := by simpa [validSeriesTypesVal] using hv
            subst hn
            simp [pyTruthy] at ht
          | vnone => simp [pyTruthy] at ht
          | vlist xs =>
            dsimp only [pyIter]
            obtain ⟨out, hout⟩ := pyFilterNotInKeys_ok_of_no_list
              (inflation_mappings.map Prod.fst) xs
              (by simpa [validSeriesTypesVal] using hv)
            rw [hout]
            dsimp only
            by_cases hie : out.isEmpty = true
            · rw [if_pos hie]; exact ⟨_, rfl⟩
            · rw [if_neg hie]; exact ⟨_, rfl⟩
        · rw [if_neg ht]; exact ⟨_, rfl⟩
    · rw [if_neg hd2]; exact ⟨_, rfl⟩

/-- C6 amended: `validate_parameters` returns a ValidationResult and
never raises provided the parameter values have the shapes the code
handles — `start_date`/`end_date` entries are strings or `None`, and
any truthy `rate_types`/`inflation_types` entry is a string or a list
of non-list values.  (The unamended claim, quantified over arbitrary
value types, is refuted by `claim6_counterexample`.) -/
theorem claim6_amended_no_raise (dt : String) (ps : Params)
    (h1 : ∀ v, ps.get "rate_types" = some v → validSeriesTypesVal v = true)
    (h2 : ∀ v, ps.get "inflation_types" = some v → validSeriesTypesVal v = true)
    (h3 : ∀ v, ps.get "start_date" = some v → validDateVal v = true)
    (h4 : ∀ v, ps.get "end_date" = some v → validDateVal v = true) :
    ∃ r, validate_parameters dt ps = .ok r := by
  obtain ⟨b, hb⟩ := datasetBranch_ok dt ps h1 h2
  obtain ⟨e1, s1⟩ := b
  obtain ⟨d2, hd2⟩ := checkDateParam_ok ps "start_date" h3
  obtain ⟨e2, s2⟩ := d2
  obtain ⟨d3, hd3⟩ := checkDateParam_ok ps "end_date" h4
  obtain ⟨e3, s3⟩ := d3
  unfold validate_parameters
  rw [hb]
  dsimp only
  rw [hd2]
  dsimp only
  rw [hd3]
  exact ⟨_, rfl⟩

/-- Witness for C6 amended: well-shaped parameters validate without
raising. -/
theorem claim6_witness :
    ∃ r, validate_parameters "interest_rates"
      [("rate_types", PyVal.vlist [PyVal.vstr "MRR"]),
       ("start_date", PyVal.vstr "2023-01-01")] = .ok r := by
  apply claim6_amended_no_raise
  · intro v hv
    have h := Option.some.inj hv
    subst h
    rfl
  · intro v hv
    exact Option.noConfusion hv
  · intro v hv
    have h := Option.some.inj hv
    subst h
    rfl
  · intro v hv
    exact Option.noConfusion hv

theorem listNth?_eq_getElem (xs : List α) (k : Nat) (h : k < xs.length) :
    listNth? xs k = some xs[k] := by
  induction xs generalizing k with
  | nil => simp at h
  | cons a l ih =>
    cases k with
    | zero => rfl
    | succ n => simpa using ih n (by simpa using h)

theorem jIndexInt_arr_ofNat (xs : List JVal) (k : Nat) (h : k < xs.length) :
    jIndexInt (.arr xs) (k : Int) = .ok xs[k] := by
  have h1 : ¬ ((k : Int) < 0) := by omega
  unfold jIndexInt
  dsimp only
  rw [if_neg h1, if_neg h1, Int.toNat_ofNat, listNth?_eq_getElem xs k h]

theorem parseObsEntry_eval (tps : JVal) (idx : String) (k : Nat)
    (t : List JVal) (d : JVal)
    (hidx : pyInt? idx = some (k : Int))
    (htp : jIndexInt tps (k : Int) = .ok (.obj [("id", d)]))
    (ht : t ≠ []) :
    parseObsEntry tps (idx, .arr t) = .ok ⟨d, headVal t⟩ := by
  unfold parseObsEntry
  rw [hidx]
  dsimp only
  rw [htp]
  dsimp only
  cases t with
  | nil => exact absurd rfl ht
  | cons a l => cases a <;> rfl

theorem mapped_dates_getElem (dates extra : List JVal) (k : Nat)
    (h : k < dates.length)
    (h2 : k < ((dates.map (fun d => JVal.obj [("id", d)])) ++ extra).length) :
    ((dates.map (fun d => JVal.obj [("id", d)])) ++ extra)[k] =
      JVal.obj [("id", dates[k])] := by
  rw [List.getElem_append_left (by simpa using h)]
  simp

theorem parseEntries_ok (dates extra : List JVal) (start : Nat)
    (idxs : List String) (tuples : List (List JVal))
    (hlen : idxs.length = tuples.length)
    (hidx : ∀ i (h : i < idxs.length),
       pyInt? (idxs.get ⟨i, h⟩) = some ((start + i : Nat) : Int))
    (hne : ∀ t ∈ tuples, t ≠ [])
    (hbound : start + tuples.length ≤ dates.length) :
    exceptMapM
        (parseObsEntry (.arr ((dates.map (fun d => JVal.obj [("id", d)])) ++ extra)))
        (List.zipWith (fun idx t => (idx, JVal.arr t)) idxs tuples) =
      .ok (List.zipWith (fun d t => Obs.mk d (headVal t))
        ((dates.drop start).take tuples.length) tuples) := by
  induction idxs generalizing tuples start with
  | nil =>
    have : tuples = [] := List.length_eq_zero.mp (hlen.symm)
    subst this
    rfl
  | cons idx idxs ih =>
    cases tuples with
    | nil => exact absurd hlen (by simp)
    | cons t ts =>
      have hstart : start < dates.length := by
        simp only [List.length_cons] at hbound
        omega
      have hidx0 : pyInt? idx = some ((start : Nat) : Int) := by
        have := hidx 0 (by simp)
        simpa using this
      have htp : jIndexInt
          (.arr ((dates.map (fun d => JVal.obj [("id", d)])) ++ extra))
          ((start : Nat) : Int) = .ok (.obj [("id", dates[start])]) := by
        rw [jIndexInt_arr_ofNat _ start (by simp; omega)]
        rw [mapped_dates_getElem dates extra start hstart (by simp; omega)]
      have hhd : parseObsEntry
          (.arr ((dates.map (fun d => JVal.obj [("id", d)])) ++ extra))
          (idx, JVal.arr t) = .ok ⟨dates[start], headVal t⟩ :=
        parseObsEntry_eval _ idx start t dates[start] hidx0 htp
          (hne t (List.mem_cons_self t ts))
      have hdrop : dates.drop start = dates[start] :: dates.drop (start + 1) :=
        List.drop_eq_getElem_cons hstart
      have htail := ih (start + 1) ts (by simpa using hlen)
        (fun i h => by
          have := hidx (i + 1) (by simpa using Nat.succ_lt_succ h)
          simpa [Nat.add_assoc, Nat.add_comm 1 i] using this)
        (fun u hu => hne u (List.mem_cons_of_mem t hu))
        (by simp only [List.length_cons] at hbound; omega)
      simp only [List.zipWith_cons_cons, exceptMapM, hhd, htail, hdrop,
        List.length_cons, List.take_succ_cons]

theorem parseJsonBody_mkEcbPayload (k : String)
    (entries : List (String × JVal)) (vals : List JVal) :
    parseJsonBody (mkEcbPayload k entries vals) =
      exceptMapM (parseObsEntry (.arr vals)) entries := by
  simp [parseJsonBody, mkEcbPayload, jHasKey, jIndexStr, jIndexInt,
    jGetDefault, jFirstKey, jItems, jTruthy, List.find?, listNth?]

/-- C3: a structured payload whose observation entries carry
string-encoded indices decoding to `0..N-1`, each mapped to a non-empty
value tuple, with a date-values array of length at least N, parses to a
Series of count N whose observations appear in entry order, pairing the
date resolved from the values array with the first element of each
tuple; and a payload whose `dataSets` is absent or the empty array
parses to the empty Series, not an error. -/
theorem claim3_structured_roundtrip :
    (∀ (k : String) (idxs : List String) (tuples : List (List JVal))
       (dates extra : List JVal),
       idxs.length = tuples.length →
       (∀ i (h : i < idxs.length), pyInt? (idxs.get ⟨i, h⟩) = some (i : Int)) →
       (∀ t ∈ tuples, t ≠ []) →
       tuples.length ≤ dates.length →
       parse_ecb_json_data (mkEcbPayload k
           (List.zipWith (fun idx t => (idx, JVal.arr t)) idxs tuples)
           ((dates.map (fun d => JVal.obj [("id", d)])) ++ extra)) =
         .parsed (List.zipWith (fun d t => Obs.mk d (headVal t))
             (dates.take tuples.length) tuples) tuples.length) ∧
    (∀ fields : List (String × JVal),
       (fields.all (fun p => !(p.1 == "dataSets"))) = true →
       parse_ecb_json_data (.obj fields) = .parsed [] 0) ∧
    (∀ fields : List (String × JVal),
       parse_ecb_json_data (.obj (("dataSets", .arr []) :: fields)) =
         .parsed [] 0) := by
  refine ⟨?_, ?_, ?_⟩
  · intro k idxs tuples dates extra hlen hidx hne hbound
    have hmap := parseEntries_ok dates extra 0 idxs tuples hlen
      (fun i h => by simpa using hidx i h) hne (by omega)
    unfold parse_ecb_json_data
    rw [parseJsonBody_mkEcbPayload, hmap]
    rw [List.drop_zero]
    have hlens : (List.zipWith (fun d t => Obs.mk d (headVal t))
        (dates.take tuples.length) tuples).length = tuples.length := by
      rw [List.length_zipWith, List.length_take]
      omega
    dsimp only
    rw [hlens]
  · intro fields h
    have hany : (fields.any (fun p => p.1 == "dataSets")) = false := by
      rw [List.any_eq_false]
      intro x hx
      have := List.all_eq_true.mp h x hx
      simpa using this
    unfold parse_ecb_json_data parseJsonBody
    rw [show jHasKey (.obj fields) "dataSets" = .ok false from by
      simp [jHasKey, hany]]
    rfl
  · intro fields
    rfl

/-- Witness for C3: a two-observation payload round-trips, and both the
no-`dataSets` and empty-`dataSets` payloads give the empty Series. -/
theorem claim3_witness :
    parse_ecb_json_data (mkEcbPayload "0:0:0:0:0"
        [("0", .arr [.num (.dec 250 (-2))]), ("1", .arr [.num (.dec 275 (-2))])]
        [.obj [("id", .str "2023-01-01")], .obj [("id", .str "2023-02-01")]]) =
      .parsed [⟨.str "2023-01-01", .num (.dec 250 (-2))⟩,
               ⟨.str "2023-02-01", .num (.dec 275 (-2))⟩] 2 ∧
    parse_ecb_json_data (.obj [("other", .null)]) = .parsed [] 0 ∧
    parse_ecb_json_data (.obj [("dataSets", .arr [])]) = .parsed [] 0 := by
  refine ⟨?_, ?_, ?_⟩
  · have hidx : ∀ i (h : i < (["0", "1"] : List String).length),
        pyInt? ((["0", "1"] : List String).get ⟨i, h⟩) = some (i : Int) := by
      intro i h
      simp only [List.length_cons, List.length_nil] at h
      rcases i with _ | _ | i
      · rfl
      · rfl
      · omega
    have hne : ∀ t ∈ [[JVal.num (.dec 250 (-2))], [JVal.num (.dec 275 (-2))]],
        t ≠ [] := by
      intro t ht
      rcases List.mem_cons.mp ht with rfl | ht2
      · simp
      rcases List.mem_cons.mp ht2 with rfl | ht3
      · simp
      · exact absurd ht3 (List.not_mem_nil t)
    have h := claim3_structured_roundtrip.1 "0:0:0:0:0" ["0", "1"]
      [[JVal.num (.dec 250 (-2))], [JVal.num (.dec 275 (-2))]]
      [.str "2023-01-01", .str "2023-02-01"] [] rfl hidx hne (by decide)
    exact h.trans (by rfl)
  · exact claim3_structured_roundtrip.2.1 [("other", .null)] (by decide)
  · exact claim3_structured_roundtrip.2.2 []
